import Mathlib

/-
Verification of the flag-parsing, validation, naming and command-assembly
logic of mingw-cross/cmake-win-on-linux.py (LAMMPS Windows installer build
script). The Python script is a linear pipeline; the logic embedded here is
its pure decision core: the argument parser, the cross-field checks, the
revision-format check, the working-directory naming, the installer-template
selection, the version-string derivation, and the fixed build command.
-/

/-- Outcome of an abnormal termination of the script.
The script's error helper (line 19-22) prints the usage message when called
with no argument, or prints "argv0 ERROR: msg" when given a message, and then
calls sys.exit with NO argument, which terminates the process with exit
status 0. An uncaught exception (e.g. int() on a non-numeric -j value,
line 145) instead terminates with a traceback and exit status 1. -/
inductive Abort where
  | errorExit (diag : Option String)
  | exception (msg : String)
deriving DecidableEq, Repr

/-- Process exit status of each abnormal-termination path: sys.exit with no
argument exits with status 0; an uncaught Python exception exits with 1. -/
def abortCode : Abort → Nat
  | .errorExit _ => 0
  | .exception _ => 1

/-- Configuration state accumulated by the argument-parse loop: one field per
module-level flag variable of the script (lines 75-84). -/
structure Config where
  bitflag : String
  numcpus : Int
  parflag : String
  thrflag : String
  pythonflag : Bool
  guiflag : Bool
  revflag : String
  verbose : Bool
  gitdir : String
  adminflag : Bool
  msixflag : Bool
deriving DecidableEq, Repr

/-- Default settings (lines 75-84). The probed CPU count (multiprocessing,
lines 11-15) and the script's directory are environment inputs, passed in as
parameters; gitdir defaults to os.path.join(homedir, "lammps"). -/
def defaultConfig (probedCpus : Int) (homedir : String) : Config :=
  { bitflag := "64"
    numcpus := probedCpus
    parflag := "no"
    thrflag := "omp"
    pythonflag := false
    guiflag := false
    revflag := "stable"
    verbose := false
    gitdir := homedir ++ "/lammps"
    adminflag := true
    msixflag := false }

/-- Boolean-flag vocabulary mapped to True by getbool (line 25). -/
def truthyTokens : List String :=
  ["yes", "Yes", "Y", "y", "on", "1", "True", "true"]

/-- Boolean-flag vocabulary mapped to False by getbool (line 27). -/
def falsyTokens : List String :=
  ["no", "No", "N", "n", "off", "0", "False", "false"]

/-- getbool (lines 24-30): maps an exact token from the truthy list to True,
an exact token from the falsy list to False, and anything else to
error("Unknown keyword option: arg"), which prints that diagnostic and
terminates via sys.exit(). -/
def getbool (arg keyword : String) : Except Abort Bool :=
  if arg ∈ truthyTokens then
    .ok true
  else if arg ∈ falsyTokens then
    .ok false
  else
    .error (.errorExit (some ("Unknown " ++ keyword ++ " option: " ++ arg)))

/-- The ten recognized command-line flags (lines 142-166). -/
def knownFlags : List String :=
  ["-b", "-j", "-p", "-t", "-y", "-u", "-r", "-v", "-a", "-g"]

/-- One iteration of the parse loop (lines 142-169): dispatch on the flag
token, consume its value token, and update the configuration. The -g branch
applies fullpath (os.path.abspath of os.path.expanduser, line 32-33), an
environment-dependent path normalization passed in as the parameter fp.
The -j branch applies int(), whose failure is an uncaught exception.
The -a branch (lines 158-164): value msix or MSIX sets adminflag False and
msixflag True together; any other value resets msixflag to False and feeds
the value to getbool. An unrecognized flag prints it and error() shows the
usage message (lines 167-169). -/
def parseStep (fp : String → String) (c : Config) (flag val : String) :
    Except Abort Config :=
  if flag = "-b" then
    .ok { c with bitflag := val }
  else if flag = "-j" then
    match val.toInt? with
    | some n => .ok { c with numcpus := n }
    | none => .error (.exception ("invalid literal for int: " ++ val))
  else if flag = "-p" then
    .ok { c with parflag := val }
  else if flag = "-t" then
    .ok { c with thrflag := val }
  else if flag = "-y" then
    match getbool val "python" with
    | .ok b => .ok { c with pythonflag := b }
    | .error a => .error a
  else if flag = "-u" then
    match getbool val "gui" with
    | .ok b => .ok { c with guiflag := b }
    | .error a => .error a
  else if flag = "-r" then
    .ok { c with revflag := val }
  else if flag = "-v" then
    match getbool val "verbose" with
    | .ok b => .ok { c with verbose := b }
    | .error a => .error a
  else if flag = "-a" then
    if val = "msix" ∨ val = "MSIX" then
      .ok { c with adminflag := false, msixflag := true }
    else
      match getbool val "admin" with
      | .ok b => .ok { c with msixflag := false, adminflag := b }
      | .error a => .error a
  else if flag = "-g" then
    .ok { c with gitdir := fp val }
  else
    .error (.errorExit none)

/-- The parse loop (lines 138-170): walks the argument list two tokens at a
time, strictly left to right. A lone trailing flag token (i+1 >= argc,
lines 139-141) prints "Missing argument to flag" and error() shows the usage
message and exits. -/
def parseArgs (fp : String → String) : List String → Config → Except Abort Config
  | [], c => .ok c
  | [_], _ => .error (.errorExit none)
  | f :: v :: rest, c =>
      match parseStep fp c f v with
      | .ok c1 => parseArgs fp rest c1
      | .error a => .error a

/-- Match semantics of the dollar anchor in Python re (no MULTILINE): the
pattern body must cover the whole input, or the whole input minus a single
trailing newline character. All three revision regexes are anchored
caret-to-dollar, so each accepts its language with one optional trailing
newline appended. -/
def pyDollar (core : List Char → Bool) (s : String) : Bool :=
  let cs := s.toList
  core cs || (if cs.getLast? = some '\n' then core cs.dropLast else false)

/-- Body of regex rev1 (line 183): (stable|release|develop|maintenance). -/
def rev1Core (cs : List Char) : Bool :=
  cs == "stable".toList || cs == "release".toList ||
  cs == "develop".toList || cs == "maintenance".toList

/-- Branch/keyword revision names, regex rev1 (line 183), with the dollar
anchor tolerating one trailing newline. -/
def rev1Match (s : String) : Bool :=
  pyDollar rev1Core s

/-- Month names of the dated-tag regex rev2 (line 184). -/
def monthNames : List String :=
  ["Jan", "Feb", "Mar", "Apr", "May", "Jun", "Jul", "Aug", "Sep", "Oct", "Nov", "Dec"]

/-- Literal-matching helper: drops the given literal character list from the
front of the input, or fails. -/
def dropLit : List Char → List Char → Option (List Char)
  | [], cs => some cs
  | _ :: _, [] => none
  | p :: ps, c :: cs => if c = p then dropLit ps cs else none

/-- Unicode decimal-digit ranges (category Nd) matched by the character
class backslash-d of Python 3 re on str patterns: 62 inclusive code-point
ranges covering 660 characters, derived from the Unicode database. -/
def pyDigitRanges : List (Nat × Nat) :=
  [(48, 57), (1632, 1641), (1776, 1785), (1984, 1993), (2406, 2415),
   (2534, 2543), (2662, 2671), (2790, 2799), (2918, 2927), (3046, 3055),
   (3174, 3183), (3302, 3311), (3430, 3439), (3558, 3567), (3664, 3673),
   (3792, 3801), (3872, 3881), (4160, 4169), (4240, 4249), (6112, 6121),
   (6160, 6169), (6470, 6479), (6608, 6617), (6784, 6793), (6800, 6809),
   (6992, 7001), (7088, 7097), (7232, 7241), (7248, 7257), (42528, 42537),
   (43216, 43225), (43264, 43273), (43472, 43481), (43504, 43513),
   (43600, 43609), (44016, 44025), (65296, 65305), (66720, 66729),
   (68912, 68921), (69734, 69743), (69872, 69881), (69942, 69951),
   (70096, 70105), (70384, 70393), (70736, 70745), (70864, 70873),
   (71248, 71257), (71360, 71369), (71472, 71481), (71904, 71913),
   (72016, 72025), (72784, 72793), (73040, 73049), (73120, 73129),
   (92768, 92777), (92864, 92873), (93008, 93017), (120782, 120831),
   (123200, 123209), (123632, 123641), (125264, 125273), (130032, 130041)]

/-- Character class backslash-d of Python 3 re: any Unicode decimal digit. -/
def isPyDigit (c : Char) : Bool :=
  pyDigitRanges.any (fun p => p.1 ≤ c.toNat && c.toNat ≤ p.2)

/-- Tail of the rev2 regex body after the underscore: one-or-more digits, a
month name, then exactly four digits to the end. The digit run is maximal
(months start with an ASCII letter, never a digit, so the regex engine's
greedy match of the digit class never backtracks into a month). -/
def rev2Tail (cs : List Char) : Bool :=
  let ds := cs.takeWhile isPyDigit
  let rest := cs.dropWhile isPyDigit
  !ds.isEmpty && monthNames.any (fun m =>
    match dropLit m.toList rest with
    | some r2 => r2.length == 4 && r2.all isPyDigit
    | none => false)

/-- Body of regex rev2 (line 184):
(patch|stable) underscore digits month four-digits. -/
def rev2Core (cs : List Char) : Bool :=
  match dropLit "patch_".toList cs with
  | some rest => rev2Tail rest
  | none =>
    match dropLit "stable_".toList cs with
    | some rest => rev2Tail rest
    | none => false

/-- Dated-tag revision names, regex rev2 (line 184), with the dollar anchor
tolerating one trailing newline. -/
def rev2Match (s : String) : Bool :=
  pyDollar rev2Core s

/-- Character class of the commit-hash regex rev3 (line 185): [a-f0-9]. -/
def isHexLower (c : Char) : Bool :=
  c.isDigit || ('a' ≤ c && c ≤ 'f')

/-- Body of regex rev3 (line 185): exactly forty characters drawn from
[a-f0-9]. -/
def rev3Core (cs : List Char) : Bool :=
  cs.length == 40 && cs.all isHexLower

/-- Commit-hash revision names, regex rev3 (line 185), with the dollar
anchor tolerating one trailing newline. -/
def rev3Match (s : String) : Bool :=
  pyDollar rev3Core s

/-- Disjunction of the three regex bodies, without the trailing-newline
tolerance of the dollar anchor. -/
def revAcceptCore (cs : List Char) : Bool :=
  rev1Core cs || rev2Core cs || rev3Core cs

/-- Revision-format acceptance (line 186): any of the three regexes matches. -/
def revAccept (s : String) : Bool :=
  rev1Match s || rev2Match s || rev3Match s

/-- The post-parse validation block (lines 173-187), in source order:
bitness, parallelism, threading, the python/gui exclusion, and the
revision-format check. Each failure prints the shown diagnostic through
error() and terminates. -/
def checks (c : Config) : Except Abort Config :=
  if c.bitflag ≠ "32" ∧ c.bitflag ≠ "64" then
    .error (.errorExit (some ("Unsupported bitness flag " ++ c.bitflag)))
  else if c.parflag ≠ "no" ∧ c.parflag ≠ "mpi" ∧ c.parflag ≠ "ms" then
    .error (.errorExit (some ("Unsupported parallel flag " ++ c.parflag)))
  else if c.thrflag ≠ "no" ∧ c.thrflag ≠ "omp" then
    .error (.errorExit (some ("Unsupported threading flag " ++ c.thrflag)))
  else if c.pythonflag && c.guiflag then
    .error (.errorExit (some "May only include either Python or LAMMPS GUI"))
  else if !(revAccept c.revflag) then
    .error (.errorExit (some ("Unsupported revision flag " ++ c.revflag)))
  else
    .ok c

/-- The whole front end of the script before any filesystem or process side
effect: parse the command line from the default settings, then run the
validation block. Everything after this point (directory creation, git,
cmake, packaging) only runs on an ok result. -/
def parseAndValidate (fp : String → String) (c0 : Config) (args : List String) :
    Except Abort Config :=
  match parseArgs fp args c0 with
  | .ok c => checks c
  | .error a => .error a

/-- Working-directory base name (lines 190-200): the script formats
"tmp-%s-%s-%s-%s" from bitflag, parflag, thrflag and revflag, appending, only
when adminflag is false, one suffix chosen by the if/elif chain: python, then
gui, then msix, then the generic noadmin suffix. The surrounding
os.path.join(fullpath('.'), ...) prepends the current directory and is common
to all branches. -/
def builddirName (c : Config) : String :=
  if c.adminflag then
    "tmp-" ++ c.bitflag ++ "-" ++ c.parflag ++ "-" ++ c.thrflag ++ "-" ++ c.revflag
  else if c.pythonflag then
    "tmp-" ++ c.bitflag ++ "-" ++ c.parflag ++ "-" ++ c.thrflag ++ "-" ++ c.revflag ++ "-python"
  else if c.guiflag then
    "tmp-" ++ c.bitflag ++ "-" ++ c.parflag ++ "-" ++ c.thrflag ++ "-" ++ c.revflag ++ "-gui"
  else if c.msixflag then
    "tmp-" ++ c.bitflag ++ "-" ++ c.parflag ++ "-" ++ c.thrflag ++ "-" ++ c.revflag ++ "-msix"
  else
    "tmp-" ++ c.bitflag ++ "-" ++ c.parflag ++ "-" ++ c.thrflag ++ "-" ++ c.revflag ++ "-noadmin"

/-- Restatement of the working-directory naming the way the spec words it:
a deterministic join of the fixed "tmp" marker with bitness, parallelism,
threading and revision, plus, only in the non-admin branch, exactly one
suffix chosen by first-match priority python, gui, msix, noadmin. Written
independently of builddirName so the two can be compared. -/
def builddirNameSpec (c : Config) : String :=
  let base := "tmp-" ++ c.bitflag ++ "-" ++ c.parflag ++ "-" ++ c.thrflag ++ "-" ++ c.revflag
  if c.adminflag then
    base
  else
    match [(c.pythonflag, "-python"), (c.guiflag, "-gui"), (c.msixflag, "-msix")].find?
        (fun p => p.1) with
    | some p => base ++ p.2
    | none => base ++ "-noadmin"

/-- Installer-template selection (lines 422-434): the if/elif chain picks the
template file name in the priority order python, gui, admin, parallelism ms,
msix, generic noadmin. The surrounding os.path.join(homedir, "installer", ...)
is common to all six branches. -/
def nsisfile (c : Config) : String :=
  if c.pythonflag then
    "lammps-python.nsis"
  else if c.guiflag then
    "lammps-gui.nsis"
  else if c.adminflag then
    "lammps-admin.nsis"
  else if c.parflag == "ms" then
    "lammps-msmpi.nsis"
  else if c.msixflag then
    "lammps-msix.nsis"
  else
    "lammps-noadmin.nsis"

/-- Ordered condition/template table used by the spec-style first-match
selector below. -/
def templateTable (c : Config) : List (Bool × String) :=
  [(c.pythonflag, "lammps-python.nsis"),
   (c.guiflag, "lammps-gui.nsis"),
   (c.adminflag, "lammps-admin.nsis"),
   (c.parflag == "ms", "lammps-msmpi.nsis"),
   (c.msixflag, "lammps-msix.nsis")]

/-- Restatement of installer-template selection the way the spec words it:
strict priority order, the template of the highest-priority condition that
holds, else the generic no-admin template. Written independently of nsisfile
so the two can be compared. -/
def nsisfileSpec (c : Config) : String :=
  match (templateTable c).find? (fun p => p.1) with
  | some p => p.2
  | none => "lammps-noadmin.nsis"

/-- The six installer template file names. -/
def nsisTemplates : List String :=
  ["lammps-python.nsis", "lammps-gui.nsis", "lammps-admin.nsis",
   "lammps-msmpi.nsis", "lammps-msix.nsis", "lammps-noadmin.nsis"]

/-- The double-quote character, written by code point to keep the scanner
logic readable. -/
def quoteChar : Char := Char.ofNat 34

/-- Word character of the regex class backslash-w as it applies to the ASCII
content of the version line: letters, digits, or underscore. -/
def isWordChar (c : Char) : Bool :=
  c.isAlphanum || c = '_'

/-- Match of the version regex (line 448) after an opening quote: a maximal
nonempty word-character run, a space, a second run, a space, a third run,
then the closing quote; the trailing ".*$" of the regex accepts whatever
follows. Greedy word runs never backtrack here because the required
follower (space or quote) is not a word character. -/
def tripleAfterQuote (cs : List Char) : Option (String × String × String) :=
  let w1 := cs.takeWhile isWordChar
  match w1, cs.dropWhile isWordChar with
  | [], _ => none
  | _, c1 :: r1 =>
    if c1 = ' ' then
      let w2 := r1.takeWhile isWordChar
      match w2, r1.dropWhile isWordChar with
      | [], _ => none
      | _, c2 :: r2 =>
        if c2 = ' ' then
          let w3 := r2.takeWhile isWordChar
          match w3, r2.dropWhile isWordChar with
          | [], _ => none
          | _, c3 :: _ =>
            if c3 = quoteChar then some (w1.asString, w2.asString, w3.asString)
            else none
          | _, [] => none
        else none
      | _, [] => none
    else none
  | _, [] => none

/-- Scan for the quoted token triple, preferring the rightmost viable opening
quote: the regex (line 448) starts with a greedy ".*", so the engine commits
to the last position from which the quoted triple and the rest still match. -/
def verexpScan : List Char → Option (String × String × String)
  | [] => none
  | c :: rest =>
    match verexpScan rest with
    | some g => some g
    | none => if c = quoteChar then tripleAfterQuote rest else none

/-- Result of verexp.match(line).groups() (lines 448-450) on one line of
src/version.h: the three captured word tokens, or none when the regex does
not match (in which case the script crashes on None.groups()). -/
def verexpMatch (line : String) : Option (String × String × String) :=
  verexpScan line.toList

/-- Version-string derivation (lines 445-453). Start from revflag; for
stable, release, or a dated tag, read the quoted triple out of the given
version.h line and join the three tokens with no separator; for develop or
maintenance use the current date, passed in as today (time.strftime of
Y-m-d); otherwise keep revflag (a commit hash) verbatim. A failed regex
match is the uncaught AttributeError on None.groups(). -/
def deriveVersion (revflag verLine today : String) : Except Abort String :=
  if revflag = "stable" ∨ revflag = "release" ∨ rev2Match revflag then
    match verexpMatch verLine with
    | some (a, b, c) => .ok (a ++ b ++ c)
    | none => .error (.exception "AttributeError: NoneType has no attribute groups")
  else if revflag = "develop" ∨ revflag = "maintenance" then
    .ok today
  else
    .ok revflag

/-- The primary build invocation (line 302): a literal command string with a
hard-coded parallelism of 8. It takes the configuration (which carries the
-j value in numcpus) as an argument to record that nothing of it is
interpolated into the command. -/
def mainBuildCmd (_c : Config) : String :=
  "cmake --build . --parallel 8"

/-- Value token of the last occurrence of the given flag in an argument
list, read the way the parse loop chunks it: two tokens at a time. -/
def lastVal (flag : String) : List String → Option String
  | [] => none
  | [_] => none
  | f :: v :: rest =>
    match lastVal flag rest with
    | some w => some w
    | none => if f = flag then some v else none

/-- Two-tokens-at-a-time recursion principle matching the shape of the parse
loop. -/
def pairRec {motive : List String → Prop} (h0 : motive [])
    (h1 : ∀ a, motive [a])
    (h2 : ∀ a b rest, motive rest → motive (a :: b :: rest)) :
    ∀ l, motive l
  | [] => h0
  | [a] => h1 a
  | a :: b :: rest => h2 a b rest (pairRec h0 h1 h2 rest)

/-- Helper: the parse loop is sequential — a successfully parsed argument
segment followed by further arguments behaves like parsing the rest from the
intermediate configuration. -/
theorem parseArgs_append (fp : String → String) :
    ∀ (xs ys : List String) (c0 c1 : Config),
      parseArgs fp xs c0 = .ok c1 → parseArgs fp (xs ++ ys) c0 = parseArgs fp ys c1 := by
  intro xs
  induction xs using pairRec with
  | h0 =>
    intro ys c0 c1 h
    simp [parseArgs] at h
    subst h
    rfl
  | h1 a =>
    intro ys c0 c1 h
    simp [parseArgs] at h
  | h2 a b rest ih =>
    intro ys c0 c1 h
    simp only [parseArgs] at h
    cases hstep : parseStep fp c0 a b with
    | error a2 =>
      rw [hstep] at h
      exact absurd h (by simp)
    | ok c2 =>
      rw [hstep] at h
      rw [List.cons_append, List.cons_append]
      simp only [parseArgs, hstep]
      exact ih ys c2 c1 h

/-- Helper: the final value of a configuration field that only one flag
writes is determined by that flag's last occurrence. The relation R links
the last value token to the final field content. -/
theorem parseArgs_lastVal {α : Type} (flag : String) (g : Config → α)
    (R : String → α → Prop)
    (hOther : ∀ fp c f v c1, f ≠ flag → parseStep fp c f v = .ok c1 → g c1 = g c)
    (hFlag : ∀ fp c v c1, parseStep fp c flag v = .ok c1 → R v (g c1))
    (fp : String → String) :
    ∀ (args : List String) (c0 c : Config),
      parseArgs fp args c0 = .ok c →
      (match lastVal flag args with
       | some v => R v (g c)
       | none => g c = g c0) := by
  intro args
  induction args using pairRec with
  | h0 =>
    intro c0 c h
    simp [parseArgs] at h
    subst h
    simp [lastVal]
  | h1 a =>
    intro c0 c h
    simp [parseArgs] at h
  | h2 a b rest ih =>
    intro c0 c h
    simp only [parseArgs] at h
    cases hstep : parseStep fp c0 a b with
    | error a2 =>
      rw [hstep] at h
      exact absurd h (by simp)
    | ok c1 =>
      rw [hstep] at h
      have ihr := ih c1 c h
      cases hlv : lastVal flag rest with
      | some w =>
        rw [hlv] at ihr
        simp only [lastVal, hlv]
        exact ihr
      | none =>
        rw [hlv] at ihr
        by_cases hf : a = flag
        · subst hf
          simp only [lastVal, hlv, if_pos rfl]
          rw [ihr]
          exact hFlag fp c0 b c1 hstep
        · simp only [lastVal, hlv, if_neg hf]
          rw [ihr]
          exact hOther fp c0 a b c1 hf hstep

/-- Helper: no flag other than -a changes msixflag. -/
theorem parseStep_other_msixflag (fp : String → String) (c : Config) (f v : String)
    (c1 : Config) (hf : f ≠ "-a") (h : parseStep fp c f v = .ok c1) :
    c1.msixflag = c.msixflag := by
  unfold parseStep at h
  repeat' split at h
  all_goals first
    | (injection h with h2; subst h2; rfl)
    | (cases h)

/-- Helper: no flag other than -y changes pythonflag. -/
theorem parseStep_other_pythonflag (fp : String → String) (c : Config) (f v : String)
    (c1 : Config) (hf : f ≠ "-y") (h : parseStep fp c f v = .ok c1) :
    c1.pythonflag = c.pythonflag := by
  unfold parseStep at h
  repeat' split at h
  all_goals first
    | (injection h with h2; subst h2; rfl)
    | (cases h)

/-- Helper: a successful -a step leaves msixflag true exactly when its value
token was msix or MSIX; every other accepted value resets it to false. -/
theorem parseStep_dash_a_msixflag (fp : String → String) (c : Config) (v : String)
    (c1 : Config) (h : parseStep fp c "-a" v = .ok c1) :
    (c1.msixflag = true ↔ (v = "msix" ∨ v = "MSIX")) := by
  have h2 : (if v = "msix" ∨ v = "MSIX" then
      Except.ok { c with adminflag := false, msixflag := true }
    else
      match getbool v "admin" with
      | .ok b => Except.ok { c with msixflag := false, adminflag := b }
      | .error a => Except.error a) = Except.ok c1 := by
    rw [← h]; rfl
  split at h2
  · injection h2 with h3
    subst h3
    simpa using (by assumption)
  · rename_i hv
    cases hg : getbool v "admin" with
    | ok b => rw [hg] at h2; injection h2 with h3; subst h3; simpa using hv
    | error a => rw [hg] at h2; cases h2

/-- Helper: a successful -y step stores exactly the getbool reading of its
value token in pythonflag. -/
theorem parseStep_dash_y_pythonflag (fp : String → String) (c : Config) (v : String)
    (c1 : Config) (h : parseStep fp c "-y" v = .ok c1) :
    getbool v "python" = .ok c1.pythonflag := by
  have h2 : (match getbool v "python" with
      | .ok b => Except.ok { c with pythonflag := b }
      | .error a => Except.error a) = Except.ok c1 := by
    rw [← h]; rfl
  cases hg : getbool v "python" with
  | ok b => rw [hg] at h2; injection h2 with h3; subst h3; rfl
  | error a => rw [hg] at h2; cases h2

/-- Helper: after a successful parse, msixflag reflects the last -a
occurrence: true exactly for value msix or MSIX, unchanged when -a never
occurs. -/
theorem parseArgs_msixflag (fp : String → String) (args : List String)
    (c0 c : Config) (h : parseArgs fp args c0 = .ok c) :
    (match lastVal "-a" args with
     | some v => (c.msixflag = true ↔ (v = "msix" ∨ v = "MSIX"))
     | none => c.msixflag = c0.msixflag) :=
  parseArgs_lastVal "-a" Config.msixflag
    (fun v b => b = true ↔ (v = "msix" ∨ v = "MSIX"))
    (fun fp c f v c1 hf hs => parseStep_other_msixflag fp c f v c1 hf hs)
    (fun fp c v c1 hs => parseStep_dash_a_msixflag fp c v c1 hs)
    fp args c0 c h

/-- Helper: after a successful parse, pythonflag reflects the last -y
occurrence through getbool, unchanged when -y never occurs. -/
theorem parseArgs_pythonflag (fp : String → String) (args : List String)
    (c0 c : Config) (h : parseArgs fp args c0 = .ok c) :
    (match lastVal "-y" args with
     | some v => getbool v "python" = .ok c.pythonflag
     | none => c.pythonflag = c0.pythonflag) :=
  parseArgs_lastVal "-y" Config.pythonflag
    (fun v b => getbool v "python" = .ok b)
    (fun fp c f v c1 hf hs => parseStep_other_pythonflag fp c f v c1 hf hs)
    (fun fp c v c1 hs => parseStep_dash_y_pythonflag fp c v c1 hs)
    fp args c0 c h

/-- Claim C1, counterexample: the command line with the unknown flag -x is
rejected with the usage message, but the process exit status of that
termination (sys.exit with no argument) is 0, not nonzero. -/
theorem c1_claim_counterexample :
    parseAndValidate (fun s => s) (defaultConfig 1 "") ["-x", "1"] =
      .error (.errorExit none) ∧
    abortCode (.errorExit none) = 0 := ⟨rfl, rfl⟩

/-- Claim C1 (amended): for every command line the program rejects — flag
missing its value token, unknown flag, bad boolean token, or failed
cross-field/revision validation — it prints a diagnostic or usage message
and then terminates via sys.exit() with exit status 0 (not nonzero). -/
theorem c1_amended_reject_paths :
    (∀ (fp : String → String) (c : Config) (f : String),
      parseArgs fp [f] c = .error (.errorExit none)) ∧
    (∀ (fp : String → String) (c : Config) (f v : String) (rest : List String),
      f ∉ knownFlags →
      parseArgs fp (f :: v :: rest) c = .error (.errorExit none)) ∧
    (∀ (fp : String → String) (c : Config) (v : String) (rest : List String),
      v ∉ truthyTokens → v ∉ falsyTokens →
      parseArgs fp ("-y" :: v :: rest) c =
        .error (.errorExit (some ("Unknown python option: " ++ v)))) ∧
    (∀ (c : Config) (a : Abort), checks c = .error a → ∃ m, a = .errorExit (some m)) ∧
    (∀ m : Option String, abortCode (.errorExit m) = 0) := by
  refine ⟨?_, ?_, ?_, ?_, ?_⟩
  · intro fp c f
    rfl
  · intro fp c f v rest hf
    simp only [knownFlags, List.mem_cons, List.not_mem_nil, or_false] at hf
    push_neg at hf
    obtain ⟨h1, h2, h3, h4, h5, h6, h7, h8, h9, h10⟩ := hf
    have hstep : parseStep fp c f v = .error (.errorExit none) := by
      unfold parseStep
      rw [if_neg h1, if_neg h2, if_neg h3, if_neg h4, if_neg h5, if_neg h6,
        if_neg h7, if_neg h8, if_neg h9, if_neg h10]
    simp [parseArgs, hstep]
  · intro fp c v rest hv1 hv2
    have hg : getbool v "python" =
        .error (.errorExit (some ("Unknown python option: " ++ v))) := by
      unfold getbool
      rw [if_neg hv1, if_neg hv2]
      rfl
    have hstep : parseStep fp c "-y" v =
        .error (.errorExit (some ("Unknown python option: " ++ v))) := by
      have hred : parseStep fp c "-y" v = (match getbool v "python" with
        | .ok b => Except.ok { c with pythonflag := b }
        | .error a => Except.error a) := rfl
      rw [hred, hg]
    simp [parseArgs, hstep]
  · intro c a h
    unfold checks at h
    split_ifs at h <;> (injection h with h2; exact ⟨_, h2.symm⟩)
  · intro m
    rfl

/-- Witness for the amended C1 at the concrete unknown flag -x. -/
theorem c1_amended_witness :
    parseArgs (fun s => s) ["-x", "1"] (defaultConfig 1 "") =
      .error (.errorExit none) :=
  c1_amended_reject_paths.2.1 (fun s => s) (defaultConfig 1 "") "-x" "1" [] (by decide)

/-- Claim C2, counterexample: the uppercase case variant YES of the truthy
token yes is not parsed as True — getbool rejects it with a diagnostic, so
boolean parsing is not case-insensitive over the claimed vocabulary. -/
theorem c2_claim_counterexample :
    getbool "YES" "python" =
      .error (.errorExit (some "Unknown python option: YES")) ∧
    getbool "YES" "python" ≠ .ok true := by
  have he : getbool "YES" "python" =
      .error (.errorExit (some "Unknown python option: YES")) := rfl
  refine ⟨he, ?_⟩
  intro h
  rw [he] at h
  exact Except.noConfusion h

/-- Claim C2 (amended): getbool accepts exactly the listed spellings — yes,
Yes, Y, y, on, 1, True, true give True; no, No, N, n, off, 0, False, false
give False; every other token, including other case variants such as YES,
fails with a diagnostic naming the offending flag keyword. -/
theorem c2_amended_getbool_vocabulary :
    ∀ arg keyword : String,
      (arg ∈ truthyTokens → getbool arg keyword = .ok true) ∧
      (arg ∈ falsyTokens → getbool arg keyword = .ok false) ∧
      (arg ∉ truthyTokens → arg ∉ falsyTokens →
        getbool arg keyword =
          .error (.errorExit (some ("Unknown " ++ keyword ++ " option: " ++ arg)))) := by
  intro arg keyword
  refine ⟨?_, ?_, ?_⟩
  · intro h
    unfold getbool
    rw [if_pos h]
  · intro h
    have ht : arg ∉ truthyTokens := by
      intro ht
      simp only [truthyTokens, List.mem_cons, List.not_mem_nil, or_false] at ht
      rcases ht with rfl | rfl | rfl | rfl | rfl | rfl | rfl | rfl <;>
        exact absurd h (by decide)
    unfold getbool
    rw [if_neg ht, if_pos h]
  · intro h1 h2
    unfold getbool
    rw [if_neg h1, if_neg h2]

/-- Witness for the amended C2 at concrete tokens of each kind. -/
theorem c2_amended_witness :
    getbool "Y" "python" = .ok true ∧ getbool "off" "admin" = .ok false :=
  ⟨(c2_amended_getbool_vocabulary "Y" "python").1 (by decide),
   (c2_amended_getbool_vocabulary "off" "admin").2.1 (by decide)⟩

/-- Claim C3, counterexample: the pair -a MSIX — an input other than
-a msix — also ends with msixPackage true. -/
theorem c3_claim_counterexample :
    (parseArgs (fun s => s) ["-a", "MSIX"] (defaultConfig 1 "")).map Config.msixflag =
      .ok true ∧ "MSIX" ≠ "msix" := ⟨rfl, by decide⟩

/-- Claim C3 (amended): -a msix (and its alternate accepted spelling
-a MSIX) sets adminInstall false and msixPackage true simultaneously, and
for every successfully parsed command line starting from a configuration
with msixPackage false, msixPackage ends up true exactly when the last -a
occurrence carries the value msix or MSIX. -/
theorem c3_amended_msix_only_via_dash_a :
    (∀ (fp : String → String) (c : Config),
      parseStep fp c "-a" "msix" = .ok { c with adminflag := false, msixflag := true }) ∧
    (∀ (fp : String → String) (c : Config),
      parseStep fp c "-a" "MSIX" = .ok { c with adminflag := false, msixflag := true }) ∧
    (∀ (fp : String → String) (args : List String) (c0 c : Config),
      parseArgs fp args c0 = .ok c → c0.msixflag = false →
      (c.msixflag = true ↔
        (lastVal "-a" args = some "msix" ∨ lastVal "-a" args = some "MSIX"))) := by
  refine ⟨fun fp c => rfl, fun fp c => rfl, ?_⟩
  intro fp args c0 c h h0
  have hm := parseArgs_msixflag fp args c0 c h
  cases hlv : lastVal "-a" args with
  | some v =>
    simp only [hlv] at hm
    rw [hm]
    constructor
    · rintro (hv | hv) <;> subst hv
      · exact Or.inl rfl
      · exact Or.inr rfl
    · rintro (hv | hv) <;> (injection hv with hv2; subst hv2)
      · exact Or.inl rfl
      · exact Or.inr rfl
  | none =>
    simp only [hlv] at hm
    rw [hm, h0]
    simp

/-- Witness for the amended C3 at the concrete command line -a msix. -/
theorem c3_amended_witness :
    (({ defaultConfig 1 "" with adminflag := false, msixflag := true } : Config).msixflag = true ↔
      (lastVal "-a" ["-a", "msix"] = some "msix" ∨
       lastVal "-a" ["-a", "msix"] = some "MSIX")) :=
  c3_amended_msix_only_via_dash_a.2.2 (fun s => s) ["-a", "msix"] (defaultConfig 1 "")
    { defaultConfig 1 "" with adminflag := false, msixflag := true } rfl rfl

/-- Claim C4, counterexample: the revision string stable followed by a
trailing newline is accepted by the validation (the dollar anchor of Python
re matches before a final newline), although it is none of the claimed
forms: it differs from all four keywords, contains no underscore (so it is
no dated tag), and is not 40 characters long. -/
theorem c4_claim_counterexample :
    revAccept "stable\n" = true ∧
    ("stable\n" ∉ (["stable", "release", "develop", "maintenance"] : List String)) ∧
    ("stable\n").toList.all (fun ch => ch != '_') = true ∧
    ("stable\n").toList.length ≠ 40 :=
  ⟨by decide, by decide, by decide, by decide⟩

/-- Claim C4 (amended): revision validation accepts exactly the keywords
stable, release, develop, maintenance; the dated tags of the form
(patch|stable), underscore, digits, month, four digits — digits drawn from
the Unicode decimal-digit class of backslash-d; and every 40-character
string over [a-f0-9] — each of these optionally followed by one single
trailing newline (the dollar-anchor semantics of Python re); everything
else, for example foo or a keyword with two trailing newlines, is
rejected. -/
theorem c4_amended_revision_validation :
    revAccept "stable" = true ∧ revAccept "release" = true ∧
    revAccept "develop" = true ∧ revAccept "maintenance" = true ∧
    revAccept "patch_15Mar2024" = true ∧ revAccept "stable_01Jan2023" = true ∧
    revAccept "stable\n" = true ∧ revAccept "patch_15Mar2024\n" = true ∧
    (∀ s : String, s.toList.length = 40 →
      (∀ ch ∈ s.toList, isHexLower ch = true) → revAccept s = true) ∧
    (∀ s : String, s.toList.length = 40 →
      (∀ ch ∈ s.toList, isHexLower ch = true) → revAccept (s ++ "\n") = true) ∧
    revAccept "foo" = false ∧ revAccept "stable\n\n" = false ∧
    (∀ s : String, revAccept s = true ↔
      (revAcceptCore s.toList = true ∨
        (s.toList.getLast? = some '\n' ∧ revAcceptCore s.toList.dropLast = true))) := by
  refine ⟨by decide, by decide, by decide, by decide, by decide, by decide, by decide,
    by decide, ?_, ?_, by decide, by decide, ?_⟩
  · intro s h1 h2
    have h3 : rev3Core s.toList = true := by
      simp only [rev3Core, Bool.and_eq_true, beq_iff_eq, List.all_eq_true]
      exact ⟨h1, h2⟩
    have h4 : rev3Match s = true := by
      simp [rev3Match, pyDollar]
      exact Or.inl h3
    simp [revAccept, h4]
  · intro s h1 h2
    have h3 : rev3Core s.toList = true := by
      simp only [rev3Core, Bool.and_eq_true, beq_iff_eq, List.all_eq_true]
      exact ⟨h1, h2⟩
    have h4 : rev3Match (s ++ "\n") = true := by
      simp [rev3Match, pyDollar]
      exact Or.inr h3
    simp [revAccept, h4]
  · intro s
    simp only [revAccept, rev1Match, rev2Match, rev3Match, pyDollar, revAcceptCore,
      Bool.or_eq_true]
    by_cases hgl : s.toList.getLast? = some '\n'
    · simp only [hgl, if_pos rfl, Bool.or_eq_true]
      tauto
    · simp only [if_neg hgl, Bool.or_eq_true]
      tauto

/-- Witness for the amended C4 at a concrete 40-character lowercase hex
string with a trailing newline. -/
theorem c4_amended_witness :
    revAccept ("0123456789abcdef0123456789abcdef01234567" ++ "\n") = true :=
  c4_amended_revision_validation.2.2.2.2.2.2.2.2.2.1
    "0123456789abcdef0123456789abcdef01234567" (by decide) (by decide)

/-- Claim C5: whenever parsing ends with both pythonSupport and guiSupport
true, the validation block rejects the run with a diagnostic — the whole
front end returns an error abort before any build stage can run, whatever
the other flags are. -/
theorem c5_python_gui_rejected :
    ∀ (fp : String → String) (c0 : Config) (args : List String) (c : Config),
      parseArgs fp args c0 = .ok c →
      c.pythonflag = true → c.guiflag = true →
      ∃ m, parseAndValidate fp c0 args = .error (.errorExit (some m)) := by
  intro fp c0 args c h hp hg
  have hpv : parseAndValidate fp c0 args = checks c := by
    unfold parseAndValidate
    rw [h]
  rw [hpv]
  unfold checks
  split_ifs with h1 h2 h3 h4 h5
  · exact ⟨_, rfl⟩
  · exact ⟨_, rfl⟩
  · exact ⟨_, rfl⟩
  · exact ⟨_, rfl⟩
  · exact ⟨_, rfl⟩
  · exact absurd (by rw [hp, hg]; rfl) h4
/-- Witness for C5 at the concrete command line -y yes -u yes. -/
theorem c5_python_gui_rejected_witness :
    ∃ m, parseAndValidate (fun s => s) (defaultConfig 1 "") ["-y", "yes", "-u", "yes"] =
      .error (.errorExit (some m)) :=
  c5_python_gui_rejected (fun s => s) (defaultConfig 1 "") ["-y", "yes", "-u", "yes"]
    { defaultConfig 1 "" with pythonflag := true, guiflag := true } rfl rfl rfl

/-- Claim C6: installer-template selection follows the strict priority order
pythonSupport, guiSupport, adminInstall, parallelism ms, msixPackage,
generic no-admin — the source if/elif chain equals the first-match priority
selector, and the chosen template is always one of the six files. -/
theorem c6_template_priority :
    ∀ c : Config, nsisfile c = nsisfileSpec c ∧ nsisfile c ∈ nsisTemplates := by
  intro c
  cases hp : c.pythonflag <;> cases hg : c.guiflag <;> cases ha : c.adminflag <;>
    cases hm : c.msixflag <;> cases hms : (c.parflag == "ms") <;>
      simp [nsisfile, nsisfileSpec, templateTable, nsisTemplates, hp, hg, ha, hm, hms]

/-- Claim C8: the working-directory name is the deterministic join of the
tmp marker with bitness, parallelism, threading and revision, with — only in
the non-admin branch — exactly one suffix chosen by priority python, gui,
msix, noadmin; the two concrete flag combinations of the claim give
tmp-64-mpi-omp-stable and tmp-64-mpi-omp-stable-python. -/
theorem c8_builddir_name :
    (∀ c : Config, builddirName c = builddirNameSpec c) ∧
    builddirName { defaultConfig 1 "" with parflag := "mpi" } = "tmp-64-mpi-omp-stable" ∧
    builddirName { defaultConfig 1 "" with parflag := "mpi", adminflag := false, pythonflag := true } = "tmp-64-mpi-omp-stable-python" := by
  refine ⟨?_, rfl, rfl⟩
  intro c
  cases ha : c.adminflag <;> cases hp : c.pythonflag <;> cases hg : c.guiflag <;>
    cases hm : c.msixflag <;>
      simp [builddirName, builddirNameSpec, ha, hp, hg, hm]

/-- Claim C9: the primary build invocation is the fixed command string
cmake --build . --parallel 8 — one constant for every configuration, in
particular independent of the -j value stored in numcpus and of the probed
CPU count that numcpus defaults to. -/
theorem c9_fixed_build_parallelism :
    (∀ c : Config, mainBuildCmd c = "cmake --build . --parallel 8") ∧
    (∀ (c : Config) (n : Int), mainBuildCmd { c with numcpus := n } = mainBuildCmd c) ∧
    (∀ n : Int, ∀ homedir : String,
      mainBuildCmd (defaultConfig n homedir) = "cmake --build . --parallel 8") :=
  ⟨fun _ => rfl, fun _ _ => rfl, fun _ _ => rfl⟩

/-- Claim C7: the version string is derived from the revision as follows —
for stable, release, or a dated tag, the three word tokens captured from the
quoted part of the version-declaration line are concatenated with no
separator; for develop or maintenance the current date string is used; any
other (already validated, hence commit-hash) revision is used verbatim; on
the example line the result is LAMMPS2Aug2023, also for a dated tag carrying
the trailing newline that the validation tolerates. -/
theorem c7_version_derivation :
    (∀ (rev line today a b c : String),
      (rev = "stable" ∨ rev = "release" ∨ rev2Match rev = true) →
      verexpMatch line = some (a, b, c) →
      deriveVersion rev line today = .ok (a ++ b ++ c)) ∧
    (∀ line today : String, deriveVersion "develop" line today = .ok today) ∧
    (∀ line today : String, deriveVersion "maintenance" line today = .ok today) ∧
    (∀ (rev line today : String), rev ≠ "stable" → rev ≠ "release" →
      rev2Match rev = false → rev ≠ "develop" → rev ≠ "maintenance" →
      deriveVersion rev line today = .ok rev) ∧
    deriveVersion "stable" "#define LAMMPS_VERSION \"LAMMPS 2 Aug2023\"" "2026-01-01" =
      .ok "LAMMPS2Aug2023" ∧
    deriveVersion "patch_15Mar2024\n" "#define LAMMPS_VERSION \"LAMMPS 2 Aug2023\"" "2026-01-01" =
      .ok "LAMMPS2Aug2023" := by
  refine ⟨?_, ?_, ?_, ?_, rfl, rfl⟩
  · intro rev line today a b c hrev hline
    unfold deriveVersion
    rw [if_pos hrev, hline]
  · intro line today
    unfold deriveVersion
    rw [if_neg (by decide), if_pos (by decide)]
  · intro line today
    unfold deriveVersion
    rw [if_neg (by decide), if_pos (by decide)]
  · intro rev line today h1 h2 h3 h4 h5
    unfold deriveVersion
    rw [if_neg ?hc1, if_neg ?hc2]
    case hc1 =>
      rintro (hr | hr | hr)
      · exact h1 hr
      · exact h2 hr
      · rw [h3] at hr; exact Bool.false_ne_true hr
    case hc2 =>
      rintro (hr | hr)
      · exact h4 hr
      · exact h5 hr

/-- Witness for C7 at a concrete dated-tag revision and version line. -/
theorem c7_version_derivation_witness :
    deriveVersion "patch_15Mar2024" "x \"a b c\" y" "2026-01-01" = .ok ("a" ++ "b" ++ "c") :=
  c7_version_derivation.1 "patch_15Mar2024" "x \"a b c\" y" "2026-01-01" "a" "b" "c"
    (Or.inr (Or.inr (by decide))) rfl

/-- Claim C10: argument parsing is strictly left-to-right with
last-occurrence-wins — a parsed segment composes sequentially with the rest;
msixflag is decided by the last -a occurrence alone and pythonflag by the
last -y occurrence alone; -a msix followed by -a yes or -a no leaves
msixflag false; and -y yes followed by -y no makes a command line with
-u yes pass the python/gui validation. -/
theorem c10_last_occurrence_wins :
    (∀ (fp : String → String) (xs ys : List String) (c0 c1 : Config),
      parseArgs fp xs c0 = .ok c1 → parseArgs fp (xs ++ ys) c0 = parseArgs fp ys c1) ∧
    (∀ (fp : String → String) (args : List String) (c0 c : Config),
      parseArgs fp args c0 = .ok c →
      (match lastVal "-a" args with
       | some v => (c.msixflag = true ↔ (v = "msix" ∨ v = "MSIX"))
       | none => c.msixflag = c0.msixflag)) ∧
    (∀ (fp : String → String) (args : List String) (c0 c : Config),
      parseArgs fp args c0 = .ok c →
      (match lastVal "-y" args with
       | some v => getbool v "python" = .ok c.pythonflag
       | none => c.pythonflag = c0.pythonflag)) ∧
    (parseArgs (fun s => s) ["-a", "msix", "-a", "yes"] (defaultConfig 1 "")).map
      (fun c => (c.msixflag, c.adminflag)) = .ok (false, true) ∧
    (parseArgs (fun s => s) ["-a", "msix", "-a", "no"] (defaultConfig 1 "")).map
      (fun c => (c.msixflag, c.adminflag)) = .ok (false, false) ∧
    (parseAndValidate (fun s => s) (defaultConfig 1 "") ["-y", "yes", "-y", "no", "-u", "yes"]).map
      (fun c => (c.pythonflag, c.guiflag)) = .ok (false, true) :=
  ⟨parseArgs_append, parseArgs_msixflag, parseArgs_pythonflag, rfl, rfl, rfl⟩

/-- Witness for C10: the sequential-composition part applied to a concrete
split command line. -/
theorem c10_last_occurrence_wins_witness :
    parseArgs (fun s => s) (["-b", "32"] ++ ["-b", "64"]) (defaultConfig 1 "") =
      parseArgs (fun s => s) ["-b", "64"] { defaultConfig 1 "" with bitflag := "32" } :=
  c10_last_occurrence_wins.1 (fun s => s) ["-b", "32"] ["-b", "64"] (defaultConfig 1 "")
    { defaultConfig 1 "" with bitflag := "32" } rfl
